import Mathlib

/-!
Verification of the OpenXR-Simulator runtime (`src/runtime.cpp`) against its
natural-language specification.  The relevant runtime entry points are
shallowly embedded as pure Lean functions over explicit state records; GPU
objects (D3D11 textures, swapchains, windows) are abstracted to the data the
runtime tracks about them (counts, formats, flags), and calls into the D3D11
environment are modelled by explicit oracles where their success/failure
matters.
-/

set_option maxHeartbeats 1000000
set_option maxRecDepth 8192

namespace SimXR

/-- Subset of the `XrResult` codes returned by the entry points modelled here. -/
inductive XrResult where
  | XR_SUCCESS
  | XR_EVENT_UNAVAILABLE
  | XR_ERROR_VALIDATION_FAILURE
  | XR_ERROR_HANDLE_INVALID
  | XR_ERROR_EXTENSION_NOT_PRESENT
  | XR_ERROR_GRAPHICS_DEVICE_INVALID
  | XR_ERROR_FORM_FACTOR_UNSUPPORTED
  | XR_ERROR_RUNTIME_FAILURE
  deriving DecidableEq

/-- Sentinel used by `runtime.cpp` for "no image acquired/released yet". -/
def UINT32_MAX : Nat := 4294967295

/-- DXGI format codes used by the runtime (numeric values from dxgiformat.h). -/
def DXGI_FORMAT_UNKNOWN : Nat := 0

def DXGI_FORMAT_R32G32B32A32_FLOAT : Nat := 2

def DXGI_FORMAT_R16G16B16A16_FLOAT : Nat := 10

def DXGI_FORMAT_R8G8B8A8_UNORM : Nat := 28

def DXGI_FORMAT_R8G8B8A8_UNORM_SRGB : Nat := 29

def DXGI_FORMAT_D32_FLOAT : Nat := 40

def DXGI_FORMAT_D24_UNORM_S8_UINT : Nat := 45

def DXGI_FORMAT_D16_UNORM : Nat := 55

def DXGI_FORMAT_B8G8R8A8_UNORM : Nat := 87

def DXGI_FORMAT_B8G8R8A8_UNORM_SRGB : Nat := 91

/-- Per-swapchain record, embedding `struct Swapchain` of `runtime.cpp`
(field defaults are the C++ member initializers; the vector of GPU texture
objects is abstracted to its length `imagesLen`). -/
structure Swapchain where
  handle : Nat := 1
  format : Nat := DXGI_FORMAT_R8G8B8A8_UNORM
  width : Nat := 0
  height : Nat := 0
  arraySize : Nat := 2
  mipCount : Nat := 1
  imagesLen : Nat := 0
  nextIndex : Nat := 0
  lastAcquired : Nat := UINT32_MAX
  lastReleased : Nat := UINT32_MAX
  imageCount : Nat := 3
  deriving DecidableEq

/-- Core of `xrAcquireSwapchainImage_runtime`: hand out `nextIndex`, advance
it modulo `imageCount`, and record it in `lastAcquired`. -/
def acquireImage (ch : Swapchain) : Nat × Swapchain :=
  let i := ch.nextIndex
  (i, { ch with nextIndex := (ch.nextIndex + 1) % ch.imageCount, lastAcquired := i })

/-- Core of `xrReleaseSwapchainImage_runtime`: `lastReleased := lastAcquired`. -/
def releaseImage (ch : Swapchain) : Swapchain :=
  { ch with lastReleased := ch.lastAcquired }

/-- The swapchain record built by `xrCreateSwapchain_runtime` when the map
currently holds `mapSize` entries and all three texture creations succeed:
`handle = mapSize + 2`, three images, cursors at the sentinel. -/
def createdSwapchain (mapSize format width height arraySize mipCount : Nat) : Swapchain :=
  { handle := mapSize + 2
    format := format
    width := width
    height := height
    arraySize := arraySize
    mipCount := if mipCount = 0 then 1 else mipCount
    imagesLen := 3
    nextIndex := 0
    lastAcquired := UINT32_MAX
    lastReleased := UINT32_MAX
    imageCount := 3 }

/-- An application-visible operation on one swapchain. -/
inductive SwapOp where
  | acquire
  | release
  deriving DecidableEq

/-- Number of acquire calls in an operation sequence. -/
def numAcquires : List SwapOp → Nat
  | [] => 0
  | SwapOp.acquire :: rest => numAcquires rest + 1
  | SwapOp.release :: rest => numAcquires rest

/-- Run a sequence of acquire/release calls on a swapchain, collecting the
indices handed out by the acquire calls in order. -/
def runOps : Swapchain → List SwapOp → Swapchain × List Nat
  | ch, [] => (ch, [])
  | ch, SwapOp.acquire :: rest =>
      let p := acquireImage ch
      let q := runOps p.2 rest
      (q.1, p.1 :: q.2)
  | ch, SwapOp.release :: rest => runOps (releaseImage ch) rest

lemma runOps_acquired (ops : List SwapOp) : ∀ ch : Swapchain, ch.imageCount = 3 →
    ch.nextIndex < 3 →
    (runOps ch ops).2 = (List.range (numAcquires ops)).map (fun j => (ch.nextIndex + j) % 3) := by
  induction ops with
  | nil => intro ch h3 hc; simp [runOps, numAcquires]
  | cons op rest ih =>
    intro ch h3 hc
    cases op with
    | release =>
      have hr : (releaseImage ch).imageCount = 3 := h3
      have hn : (releaseImage ch).nextIndex = ch.nextIndex := rfl
      simpa [runOps, numAcquires, hn] using ih (releaseImage ch) hr (by simpa [hn] using hc)
    | acquire =>
      have h3a : (acquireImage ch).2.imageCount = 3 := h3
      have hna : (acquireImage ch).2.nextIndex = (ch.nextIndex + 1) % 3 := by
        simp [acquireImage, h3]
      have hlt : (acquireImage ch).2.nextIndex < 3 := by
        rw [hna]; exact Nat.mod_lt _ (by decide)
      have hrec := ih (acquireImage ch).2 h3a hlt
      have hfun : (fun j => ((acquireImage ch).2.nextIndex + j) % 3)
          = fun j => (ch.nextIndex + (j + 1)) % 3 := by
        funext j
        rw [hna, Nat.mod_add_mod]
        congr 1
        omega
      rw [hfun] at hrec
      simp only [runOps, numAcquires, hrec, List.range_succ_eq_map, List.map_cons, List.map_map]
      congr 1
      show ch.nextIndex = (ch.nextIndex + 0) % 3
      simpa using (Nat.mod_eq_of_lt hc).symm

/-- C1: for every swapchain created by `xrCreateSwapchain_runtime` and every
interleaving of acquire and release calls, the sequence of indices returned
by the acquire calls is `0, 1, 2, 0, 1, 2, …` — the n-th acquire (1-based)
returns `(n-1) % 3` — regardless of release timing. -/
theorem acquire_indices_round_robin (ops : List SwapOp)
    (mapSize format width height arraySize mipCount : Nat) :
    (runOps (createdSwapchain mapSize format width height arraySize mipCount) ops).2
      = (List.range (numAcquires ops)).map (fun j => j % 3) := by
  have h := runOps_acquired ops
    (createdSwapchain mapSize format width height arraySize mipCount) rfl
    (by simp [createdSwapchain])
  simpa [createdSwapchain] using h

lemma runOps_append (l1 : List SwapOp) : ∀ (l2 : List SwapOp) (ch : Swapchain),
    runOps ch (l1 ++ l2)
      = ((runOps (runOps ch l1).1 l2).1, (runOps ch l1).2 ++ (runOps (runOps ch l1).1 l2).2) := by
  induction l1 with
  | nil => intro l2 ch; simp [runOps]
  | cons op rest ih =>
    intro l2 ch
    cases op with
    | acquire => simp [runOps, ih]
    | release => simp [runOps, ih]

lemma runOps_lastAcquired (ops : List SwapOp) : ∀ ch : Swapchain,
    (runOps ch ops).1.lastAcquired = ((runOps ch ops).2).getLastD ch.lastAcquired := by
  induction ops with
  | nil => intro ch; simp [runOps]
  | cons op rest ih =>
    intro ch
    cases op with
    | release =>
      have hla : (releaseImage ch).lastAcquired = ch.lastAcquired := rfl
      simpa [runOps, hla] using ih (releaseImage ch)
    | acquire =>
      have hstep := ih (acquireImage ch).2
      have hla : (acquireImage ch).2.lastAcquired = ch.nextIndex := rfl
      rw [hla] at hstep
      show (runOps (acquireImage ch).2 rest).1.lastAcquired
          = ((acquireImage ch).1 :: (runOps (acquireImage ch).2 rest).2).getLastD ch.lastAcquired
      rw [List.getLastD_cons]
      exact hstep

lemma runOps_length (ops : List SwapOp) : ∀ ch : Swapchain,
    ((runOps ch ops).2).length = numAcquires ops := by
  induction ops with
  | nil => intro ch; simp [runOps, numAcquires]
  | cons op rest ih =>
    intro ch
    cases op with
    | acquire => simp [runOps, numAcquires, ih]
    | release => simp [runOps, numAcquires, ih]

/-- C4: after every ReleaseImage call on a swapchain — any operation sequence
followed by a release — `lastReleased` equals the index most recently handed
out by AcquireImage (the last element of the acquire-output sequence), given
that at least one acquire has occurred. -/
theorem lastReleased_eq_last_acquired (ops : List SwapOp)
    (mapSize format width height arraySize mipCount : Nat)
    (hacq : 1 ≤ numAcquires ops) :
    ((runOps (createdSwapchain mapSize format width height arraySize mipCount)
        (ops ++ [SwapOp.release])).1).lastReleased
      = ((runOps (createdSwapchain mapSize format width height arraySize mipCount)
          (ops ++ [SwapOp.release])).2).getLastD UINT32_MAX
    ∧ (runOps (createdSwapchain mapSize format width height arraySize mipCount)
        (ops ++ [SwapOp.release])).2 ≠ [] := by
  have happ := runOps_append ops [SwapOp.release]
    (createdSwapchain mapSize format width height arraySize mipCount)
  have hone : ∀ ch : Swapchain, runOps ch [SwapOp.release] = (releaseImage ch, []) := by
    intro ch; rfl
  rw [hone] at happ
  constructor
  · rw [happ]
    have hrel : ∀ ch : Swapchain, (releaseImage ch).lastReleased = ch.lastAcquired := by
      intro ch; rfl
    simp only [hrel]
    have := runOps_lastAcquired ops
      (createdSwapchain mapSize format width height arraySize mipCount)
    simpa [createdSwapchain] using this
  · rw [happ]
    have hlen := runOps_length ops
      (createdSwapchain mapSize format width height arraySize mipCount)
    intro hemp
    rw [List.append_nil] at hemp
    rw [hemp] at hlen
    simp at hlen
    omega

/-- Witness for C4 at the concrete sequence acquire-then-release on a fresh
swapchain: the release records index 0, the single acquired index. -/
theorem lastReleased_eq_last_acquired_witness :
    1 ≤ numAcquires [SwapOp.acquire]
    ∧ (((runOps (createdSwapchain 0 29 800 600 2 1)
          ([SwapOp.acquire] ++ [SwapOp.release])).1).lastReleased
        = ((runOps (createdSwapchain 0 29 800 600 2 1)
            ([SwapOp.acquire] ++ [SwapOp.release])).2).getLastD UINT32_MAX
      ∧ (runOps (createdSwapchain 0 29 800 600 2 1)
          ([SwapOp.acquire] ++ [SwapOp.release])).2 ≠ []) :=
  ⟨by decide, lastReleased_eq_last_acquired [SwapOp.acquire] 0 29 800 600 2 1 (by decide)⟩

/-- The eight session lifecycle states of `XrSessionState` used by the
runtime. -/
inductive SessionState where
  | IDLE
  | READY
  | SYNCHRONIZED
  | VISIBLE
  | FOCUSED
  | STOPPING
  | LOSS_PENDING
  | EXITING
  deriving DecidableEq

/-- Payload of an `XrEventDataSessionStateChanged` event buffer as filled in
by `rt::PushState`: the session handle and the destination state. -/
structure StateEvent where
  session : Nat
  state : SessionState
  deriving DecidableEq

/-- The event-delivery globals of namespace `rt`: `g_state` and
`g_eventQueue`. -/
structure EventGlobals where
  gState : SessionState := SessionState.IDLE
  queue : List StateEvent := []
  deriving DecidableEq

/-- Embeds `rt::PushState`: set `g_state` to the new state and append a
session-state-changed event at the back of the queue. -/
def pushState (g : EventGlobals) (s : Nat) (ns : SessionState) : EventGlobals :=
  { gState := ns, queue := g.queue ++ [⟨s, ns⟩] }

/-- Embeds `xrPollEvent_runtime`: a null buffer fails validation; an empty queue
returns `XR_EVENT_UNAVAILABLE`; otherwise the front (oldest) event is copied
into the buffer and erased from the queue. -/
def pollEvent (bufferNull : Bool) (g : EventGlobals) :
    XrResult × Option StateEvent × EventGlobals :=
  if bufferNull then (XrResult.XR_ERROR_VALIDATION_FAILURE, none, g)
  else
    match g.queue with
    | [] => (XrResult.XR_EVENT_UNAVAILABLE, none, g)
    | e :: rest => (XrResult.XR_SUCCESS, some e, { g with queue := rest })

/-- Enqueue a list of state transitions through `rt::PushState`. -/
def pushAll (g : EventGlobals) : List (Nat × SessionState) → EventGlobals
  | [] => g
  | t :: ts => pushAll (pushState g t.1 t.2) ts

/-- Poll `n` times with a valid buffer, collecting the delivered events. -/
def drain : EventGlobals → Nat → List StateEvent × EventGlobals
  | g, 0 => ([], g)
  | g, n + 1 =>
    match pollEvent false g with
    | (_, some e, g2) =>
        let p := drain g2 n
        (e :: p.1, p.2)
    | (_, none, g2) => ([], g2)

lemma pushAll_queue (ts : List (Nat × SessionState)) : ∀ g : EventGlobals,
    (pushAll g ts).queue = g.queue ++ ts.map (fun t => (⟨t.1, t.2⟩ : StateEvent)) := by
  induction ts with
  | nil => intro g; simp [pushAll]
  | cons t rest ih =>
    intro g
    simp [pushAll, ih, pushState]

lemma drain_queue (q : List StateEvent) : ∀ g : EventGlobals, g.queue = q →
    (drain g q.length).1 = q := by
  induction q with
  | nil => intro g hq; simp [drain]
  | cons e rest ih =>
    intro g hq
    have hpoll : pollEvent false g = (XrResult.XR_SUCCESS, some e, { g with queue := rest }) := by
      simp [pollEvent, hq]
    show (drain g (rest.length + 1)).1 = e :: rest
    simp only [drain, hpoll]
    exact congrArg (e :: ·) (ih { g with queue := rest } rfl)

/-- C3: `xrPollEvent` with a valid buffer returns `XR_EVENT_UNAVAILABLE`
exactly when the queue is empty; otherwise it removes and returns the oldest
event; and after N transitions are enqueued through `rt::PushState` starting
from an empty queue, N polls return exactly those N events in transition
order, each carrying the destination state of its transition. -/
theorem pollEvent_fifo :
    (∀ g : EventGlobals,
      (pollEvent false g).1 = XrResult.XR_EVENT_UNAVAILABLE ↔ g.queue = [])
    ∧ (∀ (g : EventGlobals) (e : StateEvent) (rest : List StateEvent),
        g.queue = e :: rest →
          pollEvent false g = (XrResult.XR_SUCCESS, some e, { g with queue := rest }))
    ∧ (∀ (g0 : EventGlobals) (ts : List (Nat × SessionState)), g0.queue = [] →
        (drain (pushAll g0 ts) ts.length).1
          = ts.map (fun t => (⟨t.1, t.2⟩ : StateEvent))) := by
  refine ⟨?_, ?_, ?_⟩
  · intro g
    cases hq : g.queue with
    | nil => simp [pollEvent, hq]
    | cons e rest => simp [pollEvent, hq]
  · intro g e rest hq
    simp [pollEvent, hq]
  · intro g0 ts h0
    have hq : (pushAll g0 ts).queue = ts.map (fun t => (⟨t.1, t.2⟩ : StateEvent)) := by
      rw [pushAll_queue, h0]; simp
    have := drain_queue (ts.map (fun t => (⟨t.1, t.2⟩ : StateEvent))) (pushAll g0 ts) hq
    simpa using this

/-- Witness for C3: an empty queue polls unavailable; a singleton queue pops
its event; two pushed transitions drain back in order with their destination
states. -/
theorem pollEvent_fifo_witness :
    (pollEvent false ⟨SessionState.IDLE, []⟩).1 = XrResult.XR_EVENT_UNAVAILABLE
    ∧ pollEvent false ⟨SessionState.IDLE, [⟨7, SessionState.READY⟩]⟩
        = (XrResult.XR_SUCCESS, some ⟨7, SessionState.READY⟩, ⟨SessionState.IDLE, []⟩)
    ∧ (drain (pushAll ⟨SessionState.IDLE, []⟩
          [(4097, SessionState.READY), (4097, SessionState.SYNCHRONIZED)]) 2).1
        = [⟨4097, SessionState.READY⟩, ⟨4097, SessionState.SYNCHRONIZED⟩] := by
  refine ⟨(pollEvent_fifo.1 ⟨SessionState.IDLE, []⟩).mpr rfl, ?_, ?_⟩
  · exact pollEvent_fifo.2.1 ⟨SessionState.IDLE, [⟨7, SessionState.READY⟩]⟩
      ⟨7, SessionState.READY⟩ [] rfl
  · have := pollEvent_fifo.2.2 ⟨SessionState.IDLE, []⟩
      [(4097, SessionState.READY), (4097, SessionState.SYNCHRONIZED)] rfl
    simpa using this

/-- The global handle-to-record map `rt::g_swapchains`, as an association
list in insertion order (`std::unordered_map` semantics are captured through
`findSc`, `updateSc`, `eraseSc` and `emplaceSc`; element order never matters
to the runtime, only membership and size). -/
abbrev SwapMap := List (Nat × Swapchain)

/-- Embeds `g_swapchains.find(sc)`. -/
def findSc (m : SwapMap) (h : Nat) : Option Swapchain :=
  match m with
  | [] => none
  | e :: rest => if e.1 = h then some e.2 else findSc rest h

/-- Write back a mutated record under an existing key. -/
def updateSc (m : SwapMap) (h : Nat) (ch : Swapchain) : SwapMap :=
  match m with
  | [] => []
  | e :: rest => if e.1 = h then (h, ch) :: rest else e :: updateSc rest h ch

/-- Embeds `g_swapchains.erase(it)`. -/
def eraseSc (m : SwapMap) (h : Nat) : SwapMap :=
  match m with
  | [] => []
  | e :: rest => if e.1 = h then rest else e :: eraseSc rest h

/-- Embeds `g_swapchains.emplace(handle, chain)`: inserts only when the key is not
already present (the existing record is retained otherwise). -/
def emplaceSc (m : SwapMap) (h : Nat) (ch : Swapchain) : SwapMap :=
  match findSc m h with
  | some _ => m
  | none => m ++ [(h, ch)]

/-- Embeds `xrAcquireSwapchainImage_runtime`: unknown handle fails with
`XR_ERROR_HANDLE_INVALID`; otherwise hand out `nextIndex` and advance. -/
def acquireOp (m : SwapMap) (h : Nat) : XrResult × Option Nat × SwapMap :=
  match findSc m h with
  | none => (XrResult.XR_ERROR_HANDLE_INVALID, none, m)
  | some ch =>
      let p := acquireImage ch
      (XrResult.XR_SUCCESS, some p.1, updateSc m h p.2)

/-- Embeds `xrReleaseSwapchainImage_runtime`: accesses the map through
`g_swapchains[sc]` (`operator[]`), which default-constructs and inserts a
record when the handle is unknown, then sets `lastReleased := lastAcquired`;
the call always returns `XR_SUCCESS` and never validates the handle. -/
def releaseOp (m : SwapMap) (h : Nat) : XrResult × SwapMap :=
  match findSc m h with
  | some ch => (XrResult.XR_SUCCESS, updateSc m h (releaseImage ch))
  | none => (XrResult.XR_SUCCESS, m ++ [(h, releaseImage ({} : Swapchain))])

/-- Embeds `xrEnumerateSwapchainImages_runtime`: unknown handle fails with
`XR_ERROR_HANDLE_INVALID`; otherwise report `images.size()`. -/
def enumerateImagesOp (m : SwapMap) (h : Nat) : XrResult × Option Nat × SwapMap :=
  match findSc m h with
  | none => (XrResult.XR_ERROR_HANDLE_INVALID, none, m)
  | some ch => (XrResult.XR_SUCCESS, some ch.imagesLen, m)

/-- Embeds `xrDestroySwapchain_runtime`: unknown handle fails with
`XR_ERROR_HANDLE_INVALID`; otherwise erase the record. -/
def destroyOp (m : SwapMap) (h : Nat) : XrResult × SwapMap :=
  match findSc m h with
  | none => (XrResult.XR_ERROR_HANDLE_INVALID, m)
  | some _ => (XrResult.XR_SUCCESS, eraseSc m h)

/-- Embeds `xrCreateSwapchain_runtime` with all three texture creations succeeding:
the new handle is the current map size plus 2, and the record is `emplace`d. -/
def createOp (m : SwapMap) (format width height arraySize mipCount : Nat) :
    XrResult × Nat × SwapMap :=
  let ch := createdSwapchain m.length format width height arraySize mipCount
  (XrResult.XR_SUCCESS, ch.handle, emplaceSc m ch.handle ch)

/-- C5 counterexample: releasing through an unknown swapchain handle on the
empty map returns `XR_SUCCESS` (not `XR_ERROR_HANDLE_INVALID`) and inserts a
default-constructed record, so the claim that every swapchain operation with
an unknown handle fails with a handle-invalid error and leaves the map
unchanged is false. -/
theorem release_unknown_handle_succeeds :
    (releaseOp [] 5).1 = XrResult.XR_SUCCESS
    ∧ (releaseOp [] 5).2 = [(5, releaseImage ({} : Swapchain))]
    ∧ ¬((releaseOp [] 5).1 = XrResult.XR_ERROR_HANDLE_INVALID
        ∧ (releaseOp [] 5).2 = []) := by
  refine ⟨rfl, rfl, ?_⟩
  intro hc
  exact absurd hc.1 (by decide)

/-- C5 amended: acquire, enumerate-images and destroy called with a handle
absent from the map fail with `XR_ERROR_HANDLE_INVALID` and leave the map
unchanged, while release with an unknown handle succeeds and default-inserts
a record. -/
theorem unknown_handle_ops (m : SwapMap) (h : Nat) (hu : findSc m h = none) :
    acquireOp m h = (XrResult.XR_ERROR_HANDLE_INVALID, none, m)
    ∧ enumerateImagesOp m h = (XrResult.XR_ERROR_HANDLE_INVALID, none, m)
    ∧ destroyOp m h = (XrResult.XR_ERROR_HANDLE_INVALID, m)
    ∧ releaseOp m h = (XrResult.XR_SUCCESS, m ++ [(h, releaseImage ({} : Swapchain))]) := by
  refine ⟨?_, ?_, ?_, ?_⟩ <;> simp [acquireOp, enumerateImagesOp, destroyOp, releaseOp, hu]

/-- Witness for C5 amended at the empty map and handle 5. -/
theorem unknown_handle_ops_witness :
    findSc [] 5 = none
    ∧ (acquireOp [] 5 = (XrResult.XR_ERROR_HANDLE_INVALID, none, ([] : SwapMap))
      ∧ enumerateImagesOp [] 5 = (XrResult.XR_ERROR_HANDLE_INVALID, none, ([] : SwapMap))
      ∧ destroyOp [] 5 = (XrResult.XR_ERROR_HANDLE_INVALID, ([] : SwapMap))
      ∧ releaseOp [] 5
          = (XrResult.XR_SUCCESS, [] ++ [(5, releaseImage ({} : Swapchain))])) :=
  ⟨rfl, unknown_handle_ops [] 5 rfl⟩

/-- The keys (handles) registered in the map, in insertion order. -/
def keysOf (m : SwapMap) : List Nat := m.map Prod.fst

/-- Run `n` consecutive `xrCreateSwapchain` calls (fixed create-info),
collecting the returned handles in order. -/
def createMany : SwapMap → Nat → List Nat × SwapMap
  | m, 0 => ([], m)
  | m, n + 1 =>
      let r := createOp m 29 800 600 2 1
      let p := createMany r.2.2 n
      (r.2.1 :: p.1, p.2)

lemma findSc_eq_none_iff (m : SwapMap) (h : Nat) :
    findSc m h = none ↔ h ∉ keysOf m := by
  induction m with
  | nil => simp [findSc, keysOf]
  | cons e rest ih =>
    have hcomm : (h = e.1) ↔ (e.1 = h) := eq_comm
    by_cases he : e.1 = h
    · simp [findSc, keysOf, he, hcomm]
    · simp [findSc, keysOf, he, hcomm, ih]

lemma createMany_handles (n : Nat) : ∀ m : SwapMap,
    keysOf m = (List.range m.length).map (fun j => j + 2) →
    (createMany m n).1 = (List.range n).map (fun j => m.length + 2 + j) := by
  induction n with
  | zero => intro m hm; simp [createMany]
  | succ k ih =>
    intro m hm
    have hnotin : (m.length + 2) ∉ keysOf m := by
      rw [hm]
      intro hmem
      rcases List.mem_map.mp hmem with ⟨j, hj, hje⟩
      have := List.mem_range.mp hj
      omega
    have hfind : findSc m (m.length + 2) = none := (findSc_eq_none_iff m _).mpr hnotin
    have hemp : emplaceSc m (m.length + 2)
        (createdSwapchain m.length 29 800 600 2 1)
        = m ++ [(m.length + 2, createdSwapchain m.length 29 800 600 2 1)] := by
      simp [emplaceSc, hfind]
    have hcreate : createOp m 29 800 600 2 1
        = (XrResult.XR_SUCCESS, m.length + 2,
            m ++ [(m.length + 2, createdSwapchain m.length 29 800 600 2 1)]) := by
      simp [createOp, createdSwapchain] at hemp ⊢
      exact hemp
    have hm2 : keysOf (m ++ [(m.length + 2, createdSwapchain m.length 29 800 600 2 1)])
        = (List.range (m ++ [(m.length + 2,
            createdSwapchain m.length 29 800 600 2 1)]).length).map (fun j => j + 2) := by
      simp [keysOf, List.range_succ, hm]
      simpa [keysOf] using hm
    have hrec := ih _ hm2
    show ((createOp m 29 800 600 2 1).2.1
        :: (createMany (createOp m 29 800 600 2 1).2.2 k).1, _).1
      = (List.range (k + 1)).map (fun j => m.length + 2 + j)
    rw [hcreate]
    simp only [List.range_succ_eq_map, List.map_cons, List.map_map, List.cons.injEq]
    refine ⟨by simp, ?_⟩
    rw [hrec]
    simp only [List.length_append, List.length_cons, List.length_nil]
    exact List.map_congr_left fun j _ => by
      simp [Function.comp]
      omega

/-- C10: handles are assigned as map-size + 2, so every run of
`xrCreateSwapchain` calls with no destroys, starting from the initial empty
map, returns pairwise-distinct handles (2, 3, 4, …); but after destroying
handle 2 out of three registered swapchains, the next create computes handle
4 — colliding with the still-registered swapchain 4 — `emplace` retains the
old record (800×600, format 29, created at map size 2), and the call still
reports `XR_SUCCESS` with the colliding handle. -/
theorem swapchain_handle_assignment :
    (∀ n : Nat, ((createMany [] n).1).Nodup)
    ∧ ((createOp (destroyOp (createMany [] 3).2 2).2 30 1024 1024 2 1).1
          = XrResult.XR_SUCCESS
      ∧ (createOp (destroyOp (createMany [] 3).2 2).2 30 1024 1024 2 1).2.1 = 4
      ∧ findSc (createMany [] 3).2 4 = some (createdSwapchain 2 29 800 600 2 1)
      ∧ (createOp (destroyOp (createMany [] 3).2 2).2 30 1024 1024 2 1).2.2
          = (destroyOp (createMany [] 3).2 2).2) := by
  constructor
  · intro n
    have h := createMany_handles n [] (by simp [keysOf])
    rw [h]
    refine List.Nodup.map ?_ (List.nodup_range n)
    intro a b hab
    simp at hab
    omega
  · refine ⟨rfl, rfl, rfl, ?_⟩
    decide

/-- The two entries of `kSupportedExtensions` in `runtime.cpp`: the D3D11
enable extension and the Win32 performance-counter time-conversion
extension. -/
def kSupportedExtensions : List String :=
  ["XR_KHR_D3D11_enable", "XR_KHR_win32_convert_performance_counter_time"]

/-- The global `rt::Instance` record; field defaults are the C++ member
initializers (`handle{(XrInstance)1}`, empty extension list). -/
structure XrInstanceRec where
  handle : Nat := 1
  enabledExtensions : List String := []
  deriving DecidableEq

/-- The extension-validation loop of `xrCreateInstance_runtime`, running on
the freshly reset global instance: each supported name is appended to
`enabledExtensions`; the first unsupported name aborts with
`XR_ERROR_EXTENSION_NOT_PRESENT`, leaving the partially filled global in
place; if all names are supported the handle is set to 1 and the call
succeeds. -/
def instExtLoop (inst : XrInstanceRec) : List String → XrResult × XrInstanceRec
  | [] => (XrResult.XR_SUCCESS, { inst with handle := 1 })
  | e :: rest =>
      if kSupportedExtensions.contains e then
        instExtLoop { inst with enabledExtensions := inst.enabledExtensions ++ [e] } rest
      else (XrResult.XR_ERROR_EXTENSION_NOT_PRESENT, inst)

/-- Embeds `xrCreateInstance_runtime` as a transformer of the global
`rt::g_instance`: null createInfo or instance pointer fails validation with
no mutation; otherwise the global is reset to the default record *before*
the extension list is validated. -/
def createInstance (prev : XrInstanceRec) (infoNull : Bool) (exts : List String) :
    XrResult × XrInstanceRec :=
  if infoNull then (XrResult.XR_ERROR_VALIDATION_FAILURE, prev)
  else instExtLoop {} exts

lemma instExtLoop_unsupported (exts : List String) : ∀ inst : XrInstanceRec,
    (∃ e ∈ exts, kSupportedExtensions.contains e = false) →
    instExtLoop inst exts
      = (XrResult.XR_ERROR_EXTENSION_NOT_PRESENT,
          { inst with enabledExtensions :=
              inst.enabledExtensions
                ++ exts.takeWhile (fun e => kSupportedExtensions.contains e) }) := by
  induction exts with
  | nil => intro inst hbad; simp at hbad
  | cons e rest ih =>
    intro inst hbad
    by_cases he : kSupportedExtensions.contains e
    · have hbad2 : ∃ x ∈ rest, kSupportedExtensions.contains x = false := by
        rcases hbad with ⟨x, hx, hxf⟩
        rcases List.mem_cons.mp hx with hxe | hxr
        · rw [hxe] at hxf; rw [he] at hxf; cases hxf
        · exact ⟨x, hxr, hxf⟩
      have := ih { inst with enabledExtensions := inst.enabledExtensions ++ [e] } hbad2
      simp only [instExtLoop, he, if_true, List.takeWhile]
      rw [this]
      simp [he, List.append_assoc]
    · have hmem : e ∉ kSupportedExtensions := by simpa using he
      simp [instExtLoop, List.takeWhile, hmem]

/-- C6 amended: declaring any extension outside the two advertised ones
fails instance creation with `XR_ERROR_EXTENSION_NOT_PRESENT`, but the
failure is not state-free — the global instance has already been reset and
filled with the supported names preceding the first unsupported one. -/
theorem createInstance_unsupported_ext (prev : XrInstanceRec) (exts : List String)
    (hbad : ∃ e ∈ exts, kSupportedExtensions.contains e = false) :
    (createInstance prev false exts).1 = XrResult.XR_ERROR_EXTENSION_NOT_PRESENT
    ∧ (createInstance prev false exts).2
        = ⟨1, exts.takeWhile (fun e => kSupportedExtensions.contains e)⟩ := by
  have h := instExtLoop_unsupported exts {} hbad
  constructor
  · show (instExtLoop {} exts).1 = XrResult.XR_ERROR_EXTENSION_NOT_PRESENT
    rw [h]
  · show (instExtLoop {} exts).2
        = ⟨1, exts.takeWhile (fun e => kSupportedExtensions.contains e)⟩
    rw [h]
    rfl

/-- Witness for C6 amended: requesting the supported D3D11 extension followed
by a bogus one fails, and the global keeps the supported name. -/
theorem createInstance_unsupported_ext_witness :
    (∃ e ∈ ["XR_KHR_D3D11_enable", "XR_EXT_bogus"],
        kSupportedExtensions.contains e = false)
    ∧ ((createInstance ⟨1, []⟩ false ["XR_KHR_D3D11_enable", "XR_EXT_bogus"]).1
          = XrResult.XR_ERROR_EXTENSION_NOT_PRESENT
      ∧ (createInstance ⟨1, []⟩ false ["XR_KHR_D3D11_enable", "XR_EXT_bogus"]).2
          = ⟨1, (["XR_KHR_D3D11_enable", "XR_EXT_bogus"] : List String).takeWhile
              (fun e => kSupportedExtensions.contains e)⟩) :=
  ⟨by decide, createInstance_unsupported_ext ⟨1, []⟩
    ["XR_KHR_D3D11_enable", "XR_EXT_bogus"] (by decide)⟩

/-- C6 counterexample: a failing `xrCreateInstance` call does *not* leave the
global instance state unchanged — starting from a global that had one
enabled extension, the failing call clears it. -/
theorem createInstance_failure_mutates_state :
    (createInstance ⟨1, ["XR_KHR_D3D11_enable"]⟩ false ["XR_EXT_bogus"]).1
        = XrResult.XR_ERROR_EXTENSION_NOT_PRESENT
    ∧ (createInstance ⟨1, ["XR_KHR_D3D11_enable"]⟩ false ["XR_EXT_bogus"]).2
        ≠ ⟨1, ["XR_KHR_D3D11_enable"]⟩ := by
  constructor
  · rfl
  · intro hc
    have : (createInstance ⟨1, ["XR_KHR_D3D11_enable"]⟩ false
        ["XR_EXT_bogus"]).2.enabledExtensions = ["XR_KHR_D3D11_enable"] :=
      congrArg XrInstanceRec.enabledExtensions hc
    simp [createInstance, instExtLoop, kSupportedExtensions] at this

/-- Structure types that may appear in the `next` chain of
`XrSessionCreateInfo` (only the D3D11 graphics binding is recognised). -/
inductive XrStructType where
  | GRAPHICS_BINDING_D3D11_KHR
  | OTHER
  deriving DecidableEq

/-- Session-related global state: the fields of `rt::g_session` the modelled
entry points read or write (handle 0 is `XR_NULL_HANDLE`; the C++ member
initializer sets `handle` to 1 before any session is created), the
`static int sessionCount` of `xrCreateSession_runtime`, and the event
globals. -/
structure SessionGlobals where
  handle : Nat := 1
  state : SessionState := SessionState.IDLE
  hwnd : Bool := false
  isFocused : Bool := false
  sessionCount : Nat := 0
  events : EventGlobals := {}
  deriving DecidableEq

/-- Embeds `xrCreateSession_runtime`: increment the call counter, validate the
pointers, force-reset a live non-idle session, then walk the `next` chain
for a D3D11 graphics binding; on success the new handle is
`0x1000 + sessionCount` (0x1000 = 4096), the session state is IDLE, and a
READY event is pushed. -/
def createSession (g : SessionGlobals) (infoNull : Bool)
    (chain : List XrStructType) : XrResult × Option Nat × SessionGlobals :=
  let g1 := { g with sessionCount := g.sessionCount + 1 }
  if infoNull then (XrResult.XR_ERROR_VALIDATION_FAILURE, none, g1)
  else
    let g2 :=
      if g1.handle ≠ 0 ∧ g1.state ≠ SessionState.IDLE then
        { g1 with handle := 0, state := SessionState.IDLE, isFocused := false }
      else g1
    if chain.contains XrStructType.GRAPHICS_BINDING_D3D11_KHR then
      let h := 4096 + g2.sessionCount
      (XrResult.XR_SUCCESS, some h,
        { g2 with handle := h, state := SessionState.IDLE,
                  events := pushState g2.events h SessionState.READY })
    else (XrResult.XR_ERROR_GRAPHICS_DEVICE_INVALID, none, g2)

/-- Embeds `xrBeginSession_runtime`: performs no handle validation; pushes
SYNCHRONIZED then VISIBLE for the handle it was passed, then FOCUSED only if
the session window exists and is focused; always returns `XR_SUCCESS`. -/
def beginSession (g : SessionGlobals) (s : Nat) : XrResult × SessionGlobals :=
  let e1 := pushState g.events s SessionState.SYNCHRONIZED
  let e2 := pushState e1 s SessionState.VISIBLE
  let e3 := if g.hwnd ∧ g.isFocused then pushState e2 s SessionState.FOCUSED else e2
  (XrResult.XR_SUCCESS, { g with events := e3 })

/-- Embeds `xrEndSession_runtime`: no handle validation; pushes STOPPING then IDLE. -/
def endSession (g : SessionGlobals) (s : Nat) : XrResult × SessionGlobals :=
  let e2 := pushState (pushState g.events s SessionState.STOPPING) s SessionState.IDLE
  (XrResult.XR_SUCCESS, { g with events := e2 })

/-- Embeds `xrRequestExitSession_runtime`: no handle validation; pushes EXITING. -/
def requestExitSession (g : SessionGlobals) (s : Nat) : XrResult × SessionGlobals :=
  (XrResult.XR_SUCCESS, { g with events := pushState g.events s SessionState.EXITING })

/-- Embeds `xrDestroySession_runtime`: a handle other than the live session's fails
with `XR_ERROR_HANDLE_INVALID` and mutates nothing; otherwise the session
record is reset (the window is detached, the event queue is untouched). -/
def destroySession (g : SessionGlobals) (s : Nat) : XrResult × SessionGlobals :=
  if s ≠ g.handle then (XrResult.XR_ERROR_HANDLE_INVALID, g)
  else (XrResult.XR_SUCCESS,
    { g with handle := 0, state := SessionState.IDLE, hwnd := false, isFocused := false })

lemma createSession_success_parts (g : SessionGlobals) (chain : List XrStructType)
    (hc : chain.contains XrStructType.GRAPHICS_BINDING_D3D11_KHR = true) :
    (createSession g false chain).1 = XrResult.XR_SUCCESS
    ∧ (createSession g false chain).2.1 = some (4096 + (g.sessionCount + 1))
    ∧ (createSession g false chain).2.2.handle = 4096 + (g.sessionCount + 1)
    ∧ (createSession g false chain).2.2.sessionCount = g.sessionCount + 1 := by
  have hmem : XrStructType.GRAPHICS_BINDING_D3D11_KHR ∈ chain := by simpa using hc
  by_cases hr : ({ g with sessionCount := g.sessionCount + 1 } : SessionGlobals).handle ≠ 0
      ∧ ({ g with sessionCount := g.sessionCount + 1 } : SessionGlobals).state
          ≠ SessionState.IDLE
  · refine ⟨?_, ?_, ?_, ?_⟩ <;> simp [createSession, hc, hr, hmem]
  · refine ⟨?_, ?_, ?_, ?_⟩ <;> simp [createSession, hc, hr, hmem]

/-- C7: with a valid create-info, `xrCreateSession` succeeds and returns a
fresh non-null handle exactly when a D3D11 graphics binding structure is
present in the chained extension structures, and fails with
`XR_ERROR_GRAPHICS_DEVICE_INVALID` when none is. -/
theorem createSession_requires_d3d11_binding (g : SessionGlobals)
    (chain : List XrStructType) :
    (chain.contains XrStructType.GRAPHICS_BINDING_D3D11_KHR = true →
      (createSession g false chain).1 = XrResult.XR_SUCCESS
      ∧ (createSession g false chain).2.1 = some (4096 + (g.sessionCount + 1))
      ∧ 4096 + (g.sessionCount + 1) ≠ 0)
    ∧ (chain.contains XrStructType.GRAPHICS_BINDING_D3D11_KHR = false →
      (createSession g false chain).1 = XrResult.XR_ERROR_GRAPHICS_DEVICE_INVALID
      ∧ (createSession g false chain).2.1 = none) := by
  constructor
  · intro hc
    have h := createSession_success_parts g chain hc
    exact ⟨h.1, h.2.1, by omega⟩
  · intro hc
    have hmem : XrStructType.GRAPHICS_BINDING_D3D11_KHR ∉ chain := by simpa using hc
    by_cases hr : ({ g with sessionCount := g.sessionCount + 1 } : SessionGlobals).handle ≠ 0
        ∧ ({ g with sessionCount := g.sessionCount + 1 } : SessionGlobals).state
            ≠ SessionState.IDLE
    · constructor <;> simp [createSession, hc, hr, hmem]
    · constructor <;> simp [createSession, hc, hr, hmem]

/-- Witness for C7: a chain holding the D3D11 binding succeeds with handle
0x1001; a chain of unrecognised structures fails device-invalid. -/
theorem createSession_requires_d3d11_binding_witness :
    ((createSession {} false [XrStructType.GRAPHICS_BINDING_D3D11_KHR]).1
        = XrResult.XR_SUCCESS
      ∧ (createSession {} false [XrStructType.GRAPHICS_BINDING_D3D11_KHR]).2.1
        = some 4097)
    ∧ ((createSession {} false [XrStructType.OTHER]).1
        = XrResult.XR_ERROR_GRAPHICS_DEVICE_INVALID
      ∧ (createSession {} false [XrStructType.OTHER]).2.1 = none) := by
  constructor
  · have h := (createSession_requires_d3d11_binding {}
      [XrStructType.GRAPHICS_BINDING_D3D11_KHR]).1 (by decide)
    exact ⟨h.1, h.2.1⟩
  · exact (createSession_requires_d3d11_binding {} [XrStructType.OTHER]).2 (by decide)

/-- C2 amended: two successive `xrCreateSession` calls — the second made
while the prior session's state is arbitrary ('still non-idle' included) —
return distinct, monotonically increasing handles; afterwards
`xrDestroySession` with the prior handle fails with
`XR_ERROR_HANDLE_INVALID`, but `xrBeginSession` does not validate the handle
and succeeds even with the stale handle. -/
theorem second_createSession_distinct_handle (g : SessionGlobals)
    (st : SessionState) (chain : List XrStructType)
    (hc : chain.contains XrStructType.GRAPHICS_BINDING_D3D11_KHR = true) :
    (createSession g false chain).2.1 = some (4096 + (g.sessionCount + 1))
    ∧ (createSession { (createSession g false chain).2.2 with state := st }
        false chain).2.1 = some (4096 + (g.sessionCount + 2))
    ∧ (4096 + (g.sessionCount + 1) : Nat) ≠ 4096 + (g.sessionCount + 2)
    ∧ destroySession (createSession { (createSession g false chain).2.2 with state := st }
        false chain).2.2 (4096 + (g.sessionCount + 1))
      = (XrResult.XR_ERROR_HANDLE_INVALID,
          (createSession { (createSession g false chain).2.2 with state := st }
            false chain).2.2)
    ∧ (beginSession (createSession { (createSession g false chain).2.2 with state := st }
        false chain).2.2 (4096 + (g.sessionCount + 1))).1 = XrResult.XR_SUCCESS := by
  have h1 := createSession_success_parts g chain hc
  have h2 := createSession_success_parts
    { (createSession g false chain).2.2 with state := st } chain hc
  have hcount2 : ({ (createSession g false chain).2.2 with state := st }
      : SessionGlobals).sessionCount = g.sessionCount + 1 := h1.2.2.2
  rw [hcount2] at h2
  refine ⟨h1.2.1, by simpa [Nat.add_assoc] using h2.2.1, by omega, ?_, rfl⟩
  have hh2 : (createSession { (createSession g false chain).2.2 with state := st }
      false chain).2.2.handle = 4096 + (g.sessionCount + 2) := by
    simpa [Nat.add_assoc] using h2.2.2.1
  simp [destroySession, hh2]

/-- Witness for C2 amended at the initial globals with a D3D11 binding:
first handle 0x1001, second 0x1002. -/
theorem second_createSession_distinct_handle_witness :
    (createSession {} false [XrStructType.GRAPHICS_BINDING_D3D11_KHR]).2.1 = some 4097 := by
  have h := second_createSession_distinct_handle {} SessionState.READY
    [XrStructType.GRAPHICS_BINDING_D3D11_KHR] (by decide)
  simpa using h.1

/-- C2 counterexample: after a second create supersedes the first session
(handle 0x1001 superseded by 0x1002), `xrBeginSession` called with the stale
first handle returns `XR_SUCCESS`, not a handle-invalid error — so not every
operation with the prior handle fails. -/
theorem stale_handle_beginSession_succeeds :
    (beginSession ((createSession ((createSession {} false
        [XrStructType.GRAPHICS_BINDING_D3D11_KHR]).2.2) false
        [XrStructType.GRAPHICS_BINDING_D3D11_KHR]).2.2) 4097).1
      ≠ XrResult.XR_ERROR_HANDLE_INVALID := by
  decide

/-- Per-eye image-index selection in `presentProjection`: start from 0, take
`lastReleased` when it is not `UINT32_MAX` and below `imageCount`, else take
`lastAcquired` under the same test. -/
def pickImageIndex (ch : Swapchain) : Nat :=
  if ch.lastReleased ≠ UINT32_MAX ∧ ch.lastReleased < ch.imageCount then ch.lastReleased
  else if ch.lastAcquired ≠ UINT32_MAX ∧ ch.lastAcquired < ch.imageCount then ch.lastAcquired
  else 0

/-- An index is valid for the compositor when it is not the sentinel and is
below the swapchain's image count (the spec's wording of validity). -/
def validIndex (i count : Nat) : Prop := i ≠ UINT32_MAX ∧ i < count

instance (i count : Nat) : Decidable (validIndex i count) :=
  inferInstanceAs (Decidable (And _ _))

/-- C8: the compositor's per-eye index is `lastReleased` when that is valid,
else `lastAcquired` when that is valid, else 0; in particular a freshly
created swapchain — no acquire or release yet — selects image 0. -/
theorem compositor_picks_lastReleased (ch : Swapchain) :
    (validIndex ch.lastReleased ch.imageCount → pickImageIndex ch = ch.lastReleased)
    ∧ (¬ validIndex ch.lastReleased ch.imageCount →
        validIndex ch.lastAcquired ch.imageCount → pickImageIndex ch = ch.lastAcquired)
    ∧ (¬ validIndex ch.lastReleased ch.imageCount →
        ¬ validIndex ch.lastAcquired ch.imageCount → pickImageIndex ch = 0)
    ∧ (∀ mapSize format width height arraySize mipCount : Nat,
        pickImageIndex (createdSwapchain mapSize format width height arraySize mipCount)
          = 0) := by
  refine ⟨?_, ?_, ?_, ?_⟩
  · intro hv
    have hv2 : ch.lastReleased ≠ UINT32_MAX ∧ ch.lastReleased < ch.imageCount := hv
    simp only [pickImageIndex, if_pos hv2]
  · intro hnr ha
    have hnr2 : ¬(ch.lastReleased ≠ UINT32_MAX ∧ ch.lastReleased < ch.imageCount) := hnr
    have ha2 : ch.lastAcquired ≠ UINT32_MAX ∧ ch.lastAcquired < ch.imageCount := ha
    simp only [pickImageIndex, if_neg hnr2, if_pos ha2]
  · intro hnr hna
    have hnr2 : ¬(ch.lastReleased ≠ UINT32_MAX ∧ ch.lastReleased < ch.imageCount) := hnr
    have hna2 : ¬(ch.lastAcquired ≠ UINT32_MAX ∧ ch.lastAcquired < ch.imageCount) := hna
    simp only [pickImageIndex, if_neg hnr2, if_neg hna2]
  · intro mapSize format width height arraySize mipCount
    simp [pickImageIndex, createdSwapchain]

/-- Witness for C8: a swapchain with `lastReleased = 1` valid picks 1; one
with only `lastAcquired = 2` valid picks 2; a fresh one picks 0. -/
theorem compositor_picks_lastReleased_witness :
    pickImageIndex { lastReleased := 1, lastAcquired := 0 } = 1
    ∧ pickImageIndex { lastReleased := UINT32_MAX, lastAcquired := 2 } = 2
    ∧ pickImageIndex (createdSwapchain 0 29 800 600 2 1) = 0 :=
  ⟨(compositor_picks_lastReleased { lastReleased := 1, lastAcquired := 0 }).1
      (by constructor <;> decide),
   (compositor_picks_lastReleased { lastReleased := UINT32_MAX, lastAcquired := 2 }).2.1
      (by intro hv; exact absurd hv.1 (by decide)) (by constructor <;> decide),
   (compositor_picks_lastReleased (createdSwapchain 0 29 800 600 2 1)).2.2.2 0 29 800 600 2 1⟩

/-- State of the session's preview surface: whether `previewSwapchain` is
non-null, `previewWidth`, `previewHeight`, `previewFormat`, and whether the
session has a window. Defaults are the `rt::Session` member initializers.
Modelled for a fresh process (no persisted window from a destroyed prior
session) with window creation succeeding; `canCreate f` is the
environment's answer to `CreateSwapChainForHwnd` at DXGI format `f`. -/
structure PreviewState where
  hasSwapchain : Bool := false
  width : Nat := 1920
  height : Nat := 540
  fmt : Nat := DXGI_FORMAT_UNKNOWN
  hwnd : Bool := false
  deriving DecidableEq

/-- Embeds `ensurePreviewSized`: returns unchanged when the swapchain exists and
width, height and format all match; otherwise resets the surface, adopts the
request, ensures the window, and recreates the surface walking the fallback
ladder requested format → RGBA-linear (only from RGBA-sRGB) → BGRA-sRGB →
BGRA-linear, recording the format that succeeded; on total failure the
surface stays unset. The second component counts surface objects created
(successful `CreateSwapChainForHwnd` calls). -/
def ensurePreviewSized (canCreate : Nat → Bool) (p : PreviewState)
    (width height fmt : Nat) : PreviewState × Nat :=
  if p.hasSwapchain ∧ p.width = width ∧ p.height = height ∧ p.fmt = fmt then (p, 0)
  else
    let p1 : PreviewState :=
      { hasSwapchain := false, width := width, height := height, fmt := fmt, hwnd := true }
    if canCreate fmt then ({ p1 with hasSwapchain := true }, 1)
    else if fmt = DXGI_FORMAT_R8G8B8A8_UNORM_SRGB ∧ canCreate DXGI_FORMAT_R8G8B8A8_UNORM then
      ({ p1 with hasSwapchain := true, fmt := DXGI_FORMAT_R8G8B8A8_UNORM }, 1)
    else if canCreate DXGI_FORMAT_B8G8R8A8_UNORM_SRGB then
      ({ p1 with hasSwapchain := true, fmt := DXGI_FORMAT_B8G8R8A8_UNORM_SRGB }, 1)
    else if canCreate DXGI_FORMAT_B8G8R8A8_UNORM then
      ({ p1 with hasSwapchain := true, fmt := DXGI_FORMAT_B8G8R8A8_UNORM }, 1)
    else (p1, 0)

/-- C9 amended: when the existing surface matches the requested width,
height and format the ensure call is a no-op (state unchanged, nothing
created); and two consecutive identical requests create a surface at most
once *provided* the environment can create the requested format — then the
first call leaves a matching surface and the second call is a no-op. -/
theorem ensurePreview_matching_noop :
    (∀ (canCreate : Nat → Bool) (p : PreviewState) (width height fmt : Nat),
      p.hasSwapchain = true → p.width = width → p.height = height → p.fmt = fmt →
        ensurePreviewSized canCreate p width height fmt = (p, 0))
    ∧ (∀ (canCreate : Nat → Bool) (p : PreviewState) (width height fmt : Nat),
        canCreate fmt = true →
          ensurePreviewSized canCreate
              (ensurePreviewSized canCreate p width height fmt).1 width height fmt
            = ((ensurePreviewSized canCreate p width height fmt).1, 0)) := by
  constructor
  · intro canCreate p width height fmt hs hw hh hf
    simp [ensurePreviewSized, hs, hw, hh, hf]
  · intro canCreate p width height fmt hcc
    by_cases hmatch : p.hasSwapchain ∧ p.width = width ∧ p.height = height ∧ p.fmt = fmt
    · simp [ensurePreviewSized, hmatch]
    · have hfirst : (ensurePreviewSized canCreate p width height fmt).1
          = { hasSwapchain := true, width := width, height := height,
              fmt := fmt, hwnd := true } := by
        simp [ensurePreviewSized, hmatch, hcc]
      rw [hfirst]
      simp [ensurePreviewSized]

/-- Witness for C9 amended: with creation always succeeding, the second of
two identical requests from the default state is a no-op. -/
theorem ensurePreview_matching_noop_witness :
    ensurePreviewSized (fun _ => true) ({} : PreviewState) 800 600 29
        = ({ hasSwapchain := true, width := 800, height := 600, fmt := 29, hwnd := true }, 1)
    ∧ ensurePreviewSized (fun _ => true)
        (ensurePreviewSized (fun _ => true) ({} : PreviewState) 800 600 29).1 800 600 29
      = ((ensurePreviewSized (fun _ => true) ({} : PreviewState) 800 600 29).1, 0) :=
  ⟨by decide,
   ensurePreview_matching_noop.2 (fun _ => true) ({} : PreviewState) 800 600 29 rfl⟩

/-- C9 counterexample: when the environment rejects the requested RGBA-sRGB
format but accepts the RGBA-linear fallback, the first call records the
fallback format, so the second identical request does not match and creates
a second surface — two consecutive identical requests create two surfaces,
refuting "a surface is created at most once". -/
theorem ensurePreview_fallback_recreates :
    ((ensurePreviewSized (fun f => f != DXGI_FORMAT_R8G8B8A8_UNORM_SRGB)
        ({} : PreviewState) 800 600 DXGI_FORMAT_R8G8B8A8_UNORM_SRGB).2
      + (ensurePreviewSized (fun f => f != DXGI_FORMAT_R8G8B8A8_UNORM_SRGB)
          (ensurePreviewSized (fun f => f != DXGI_FORMAT_R8G8B8A8_UNORM_SRGB)
            ({} : PreviewState) 800 600 DXGI_FORMAT_R8G8B8A8_UNORM_SRGB).1
          800 600 DXGI_FORMAT_R8G8B8A8_UNORM_SRGB).2) = 2 := by
  decide

end SimXR
